import Mathlib

/-!
Verification development for the swapwithus backend: a shallow embedding of
the listing-creation coordinator (`src/app/api/homes.py`,
`src/app/api/common.py`), the CDN URL-signing helpers
(`src/app/utils/cdn_auth.py`) and the object-store gateway
(`src/app/services/gcp_image_service.py`), together with theorems settling
the specification claims about them.

External collaborators (the asyncpg pool, the GCS client, the `hmac`
standard library, Firebase auth) are modelled as oracles passed in as
arguments; everything the repository itself computes is translated
definition-by-definition from the Python source.
-/

/-- Python-level exceptions that the modelled code can raise, carrying the
message where the source attaches one. `httpError` models
`fastapi.HTTPException(status, detail)`. -/
inductive PyError where
  | valueError (msg : String)
  | assertionError
  | binasciiError
  | httpError (status : Nat) (detail : String)
  | exception (msg : String)
  | unboundLocal
deriving DecidableEq, Repr

/-- Boolean test for a successful `Except` result. -/
def isOkE {α : Type} (r : Except PyError α) : Bool :=
  match r with
  | .ok _ => true
  | .error _ => false

/- ## Byte/string helpers shared by the embedded functions -/

/-- UTF-8 bytes of a string, as `Nat`s; models Python `s.encode()`. -/
def strBytes (s : String) : List Nat :=
  s.toUTF8.toList.map (fun b => b.toNat)

/-- List-level prefix test used to model Python `str.startswith`. -/
def listIsPrefixOf : List Char → List Char → Bool
  | [], _ => true
  | _ :: _, [] => false
  | a :: as, b :: bs => a == b && listIsPrefixOf as bs

/-- Models Python `s.startswith(p)`. -/
def pyStartsWith (s p : String) : Bool :=
  listIsPrefixOf p.toList s.toList

/-- Models Python `c in s` for a single character. -/
def pyContainsChar (s : String) (c : Char) : Bool :=
  s.toList.contains c

/-- Models Python `s.strip()` (strip surrounding whitespace). -/
def pyStrip (s : String) : String :=
  String.mk (((s.toList.dropWhile Char.isWhitespace).reverse.dropWhile Char.isWhitespace).reverse)

/- ## Base64 (models the parts of Python `base64` used by `cdn_auth.py`) -/

/-- The standard base64 alphabet. -/
def b64StdAlphabet : String :=
  "ABCDEFGHIJKLMNOPQRSTUVWXYZabcdefghijklmnopqrstuvwxyz0123456789+/"

/-- The URL-safe base64 alphabet. -/
def b64UrlAlphabet : String :=
  "ABCDEFGHIJKLMNOPQRSTUVWXYZabcdefghijklmnopqrstuvwxyz0123456789-_"

/-- Bytes to 6-bit base64 digits, final partial group encoded without
padding digits (Python `urlsafe_b64encode` followed by `.rstrip("=")`
yields exactly these digits). -/
def b64EncDigits : List Nat → List Nat
  | a :: b :: c :: rest =>
      a / 4 :: (a % 4 * 16 + b / 16) :: (b % 16 * 4 + c / 64) :: c % 64 :: b64EncDigits rest
  | [a, b] => [a / 4, a % 4 * 16 + b / 16, b % 16 * 4]
  | [a] => [a / 4, a % 4 * 16]
  | [] => []

/-- Digit to character in the given alphabet. -/
def b64DigitChar (alphabet : String) (d : Nat) : Char :=
  alphabet.toList.getD d 'A'

/-- Base64url encoding without padding: models
`base64.urlsafe_b64encode(bs).decode().rstrip("=")`. -/
def b64urlEncodeNoPad (bs : List Nat) : String :=
  String.mk ((b64EncDigits bs).map (b64DigitChar b64UrlAlphabet))

/-- Value of one base64 character. The url-safe decoder first translates
`-` to `+` and `_` to `/` and then uses the standard alphabet (so it also
accepts `+` and `/`), exactly as Python `urlsafe_b64decode` does;
characters outside the alphabet are skipped by the caller, as
`binascii.a2b_base64` does in non-strict mode. -/
def b64DigitVal (urlsafe : Bool) (c : Char) : Option Nat :=
  let c := if urlsafe then (if c = '-' then '+' else if c = '_' then '/' else c) else c
  b64StdAlphabet.toList.findIdx? (fun x => x == c)

/-- Decode a list of 6-bit digits into bytes. A trailing group of one
digit is the "Invalid base64-encoded string" error that
`binascii.a2b_base64` raises (the Python callers pad the input to a
multiple of four, so a leftover single data digit is invalid padding). -/
def b64DecBytes : List Nat → Option (List Nat)
  | a :: b :: c :: d :: rest =>
      (b64DecBytes rest).map
        (fun tail => (a * 4 + b / 16) :: (b % 16 * 16 + c / 4) :: (c % 4 * 64 + d) :: tail)
  | [] => some []
  | [_] => none
  | [a, b] => some [a * 4 + b / 16]
  | [a, b, c] => some [a * 4 + b / 16, b % 16 * 16 + c / 4]

/-- Models Python `base64.urlsafe_b64decode` / `base64.b64decode` on an
input already padded to a multiple of four: data characters run up to the
first `=`, characters outside the alphabet are skipped, and `none` is a
raised `binascii.Error`. -/
def b64decodePy (urlsafe : Bool) (s : String) : Option (List Nat) :=
  b64DecBytes ((s.toList.takeWhile (fun c => c ≠ '=')).filterMap (b64DigitVal urlsafe))

/- ## src/app/utils/cdn_auth.py -/

/-- Models `_b64_any_to_bytes` (src/app/utils/cdn_auth.py lines 83-90):
`s = (s or "").strip()`, then url-safe decode with padding appended,
falling back to standard base64 on failure. The `Option String` input
models the `os.getenv` result (`none` when the environment variable is
absent). `none` output is a raised decode exception. -/
def _b64_any_to_bytes (s? : Option String) : Option (List Nat) :=
  let s := pyStrip (s?.getD "")
  match b64decodePy true s with
  | some bs => some bs
  | none => b64decodePy false s

/-- Message of the `ValueError` raised by `sign_cdn_url` on a short key
(src/app/utils/cdn_auth.py line 96). -/
def signKeyErrorMsg : String :=
  "Signing key looks wrong (decoded <16 bytes). Use the exact base64 string you attached to the backend."

/-- The string `sign_cdn_url` signs: the url, then `?` or `&` depending on
whether the url already has a query, then `Expires={exp}&KeyName={kn}`
(src/app/utils/cdn_auth.py lines 99-100). -/
def urlToSign (url keyName : String) (exp : Nat) : String :=
  url ++ (if pyContainsChar url '?' then "&" else "?")
      ++ "Expires=" ++ toString exp ++ "&KeyName=" ++ keyName

/-- Models `sign_cdn_url` (src/app/utils/cdn_auth.py lines 92-104; of the
two same-named Python definitions the later one is in effect). The HMAC
primitive from the `hmac` standard library is an oracle argument
`hmacSha1 key message`; `now` models `int(time.time())`. The `assert` on
the URL scheme raises `AssertionError`; a key decoding to fewer than 16
bytes raises `ValueError`. -/
def sign_cdn_url (hmacSha1 : List Nat → List Nat → List Nat)
    (url keyName : String) (keyB64 : Option String) (now expiresIn : Nat) :
    Except PyError String :=
  if ¬ (pyStartsWith url "https://" || pyStartsWith url "http://") then
    .error .assertionError
  else
    match _b64_any_to_bytes keyB64 with
    | none => .error .binasciiError
    | some key =>
      if key.length < 16 then
        .error (.valueError signKeyErrorMsg)
      else
        let toSign := urlToSign url keyName (now + expiresIn)
        .ok (toSign ++ "&Signature=" ++ b64urlEncodeNoPad (hmacSha1 key (strBytes toSign)))

/-- The policy string of `make_urlprefix_token`
(src/app/utils/cdn_auth.py line 113). -/
def urlPrefixPolicy (pfx keyName : String) (exp : Nat) : String :=
  "URLPrefix=" ++ b64urlEncodeNoPad (strBytes pfx)
      ++ "&Expires=" ++ toString exp ++ "&KeyName=" ++ keyName

/-- Models `make_urlprefix_token` (src/app/utils/cdn_auth.py lines
107-116). Note: unlike `sign_cdn_url`, it performs no check on the
decoded key at all — with the key environment variable absent it signs
with the empty byte string and still returns a token. -/
def make_urlprefix_token (hmacSha1 : List Nat → List Nat → List Nat)
    (urlPfx keyName : String) (keyB64 : Option String) (now expiresIn : Nat) :
    Except PyError String :=
  match _b64_any_to_bytes keyB64 with
  | none => .error .binasciiError
  | some key =>
    let policy := urlPrefixPolicy urlPfx keyName (now + expiresIn)
    .ok (policy ++ "&Signature=" ++ b64urlEncodeNoPad (hmacSha1 key (strBytes policy)))

/-- Modelled from the spec (claim C5 wording): the URL-prefix token is the
policy string `URLPrefix={base64url-without-padding(prefix)}` then
`&Expires={now+ttl}&KeyName={key_name}`, followed by `&Signature={s}` with
`s` the base64url-encoding without padding of the HMAC of the policy
string under the decoded key. Used to compare against the source
definition. -/
def specUrlPrefixToken (hmacSha1 : List Nat → List Nat → List Nat)
    (key : List Nat) (urlPfx keyName : String) (now ttl : Nat) : String :=
  let policy := "URLPrefix=" ++ b64urlEncodeNoPad (strBytes urlPfx)
      ++ "&Expires=" ++ toString (now + ttl) ++ "&KeyName=" ++ keyName
  policy ++ "&Signature=" ++ b64urlEncodeNoPad (hmacSha1 key (strBytes policy))

/- ## src/app/services/gcp_image_service.py -/

/-- Model of a `fastapi.UploadFile` as seen by the validation code:
`content_type`, the client-reported `size` (absent when the client sent no
length), the client filename, and the actual content bytes. -/
structure UploadFileModel where
  content_type : Option String
  size : Option Nat
  filename : Option String
  content : List Nat
deriving DecidableEq, Repr

/-- The size guard of `upload_photo_to_storage`
(src/app/services/gcp_image_service.py line 116):
`photo.size and photo.size > 5_000_000`. A `None` size is falsy, so the
whole check is skipped; a reported size of 0 is also falsy. -/
def sizeGuardFires (size : Option Nat) : Bool :=
  match size with
  | none => false
  | some n => decide (n ≠ 0) && decide (n > 5000000)

/-- The content-type guard (line 113):
`not photo.content_type or not photo.content_type.startswith("image/")`.
An absent or empty content type is falsy and fails the guard, as does one
not starting with `image/`. -/
def contentTypeOk (ct : Option String) : Bool :=
  pyStartsWith (ct.getD "") "image/"

/-- The validation phase of `upload_photo_to_storage` (lines 111-117),
before the generated-filename / upload steps: the raw `ValueError`s raised
inside the `try` block. -/
def uploadPhotoValidate (f : UploadFileModel) : Except PyError Unit :=
  if contentTypeOk f.content_type = false then
    .error (.valueError "Only image files are allowed")
  else if sizeGuardFires f.size then
    .error (.valueError "File size too large (max 5MB)")
  else
    .ok ()

/-- Filename extension computation (line 120):
`photo.filename.split(".")[-1].lower() if photo.filename else "jpg"`,
then whitelisted to jpg/jpeg/png/webp with fallback "jpg" (lines 121-122). -/
def fileExtension (filename : Option String) : String :=
  let raw :=
    match filename with
    | none => "jpg"
    | some fn => if fn = "" then "jpg" else ((fn.splitOn ".").getLastD "").toLower
  if raw = "jpg" ∨ raw = "jpeg" ∨ raw = "png" ∨ raw = "webp" then raw else "jpg"

/-- Blob name generated at line 129:
`f"{category.lower()}/{listing_id}_{timestamp}_{unique_id}.{file_extension}"`.
`timestamp` and `uniqueId` stand for the wall clock and `uuid.uuid4()`. -/
def uploadBlobName (category listingId timestamp uniqueId : String)
    (filename : Option String) : String :=
  category.toLower ++ "/" ++ listingId ++ "_" ++ timestamp ++ "_" ++ uniqueId
    ++ "." ++ fileExtension filename

/-- Models `upload_photo_to_storage`
(src/app/services/gcp_image_service.py lines 100-179). The GCS upload is
the oracle `storePut blobName content` (`false` = the client raised); the
outer handlers wrap any raised exception into a generic
`Exception("Failed to upload photo...")` so no internal detail escapes.
Returns the public URL on success. Note that after validation the
client-reported `size` plays no further role: the actual `content` bytes
are uploaded whatever their length. -/
def upload_photo_to_storage (storePut : String → List Nat → Bool)
    (f : UploadFileModel) (listingId category bucket timestamp uniqueId : String) :
    Except PyError String :=
  match uploadPhotoValidate f with
  | .error _ => .error (.exception "Failed to upload photo")
  | .ok _ =>
    let blobName := uploadBlobName category listingId timestamp uniqueId f.filename
    if storePut blobName f.content then
      .ok ("https://storage.googleapis.com/" ++ bucket ++ "/" ++ blobName)
    else
      .error (.exception "Failed to upload photo: Storage service error")

/-- Characters after the first occurrence of `sep` in the list, or `none`
when `sep` does not occur. -/
def afterFirst (sep : List Char) : List Char → Option (List Char)
  | [] => none
  | c :: rest =>
    if listIsPrefixOf sep (c :: rest) then some (List.drop sep.length (c :: rest))
    else afterFirst sep rest

/-- Characters up to (excluding) the next occurrence of `sep`. -/
def upToNext (sep : List Char) : List Char → List Char
  | [] => []
  | c :: rest =>
    if listIsPrefixOf sep (c :: rest) then [] else c :: upToNext sep rest

/-- Models Python `s.split(sep)[1]` for a nonempty separator: the segment
between the first occurrence of `sep` and the following occurrence (or
the end); `none` models the `IndexError` raised when `sep` does not occur
in `s`. -/
def pySplitSecond (s sep : String) : Option String :=
  (afterFirst sep.toList s.toList).map (fun tail => String.mk (upToNext sep.toList tail))

/-- Models `delete_image_from_storage`
(src/app/services/gcp_image_service.py lines 237-271). The whole body sits
in a `try` whose `except Exception` returns `False`: a public URL without
the `storage.googleapis.com/{bucket}/` marker raises `IndexError` at
`split(...)[1]` and yields `False`; a raised GCS delete (object absent,
network error) yields `False`; only a successful delete yields `True`.
The `Bool` return type is the model of "never raises to its caller". -/
def delete_image_from_storage (storeDel : String → Except PyError Unit)
    (bucket publicUrl : String) : Bool :=
  match pySplitSecond publicUrl ("storage.googleapis.com/" ++ bucket ++ "/") with
  | none => false
  | some blobName =>
    match storeDel blobName with
    | .ok _ => true
    | .error _ => false

/- ## Listing transaction coordinator (src/app/api/homes.py, common.py) -/

/-- Observable side effects of one coordinator call, in program order:
object-store uploads (with their outcome: `some url` success, `none`
raised), the database transaction boundary events, and object-store
compensating/cleanup deletes. -/
inductive Event where
  | upload (idx : Nat) (result : Option String)
  | txBegin
  | txCommit
  | txRollback
  | storeDelete (url : String)
deriving DecidableEq, Repr

/-- Oracles for one coordinator call: the object-store upload outcome per
image index (`none` = the upload task raised) and whether the database
transaction body succeeds. `asyncpg`'s `conn.transaction()` context
manager commits on success and rolls back when the body raises; that
documented external behavior is what `dbOk` abstracts. -/
structure CreateOracles where
  uploadResult : Nat → Option String
  dbOk : Bool

/-- Rows that exist for the attempted listing after the call returns:
the number of listing rows (for the generated `listing_id`) and the
`public_url`s of its image rows. -/
structure DbOutcome where
  listingRows : Nat
  imageRows : List String
deriving DecidableEq, Repr

/-- What the caller of a coordinator endpoint observes. -/
inductive ApiResult where
  | created (imageCount : Nat)
  | updated (imagesUpdated imagesDeleted : Nat)
  | clientError (detail : String)
  | serverError (detail : String)
deriving DecidableEq, Repr

/-- Recognizer for a 400-class validation rejection. -/
def isClientError : ApiResult → Bool
  | .clientError _ => true
  | _ => false

/-- The upload events of an `asyncio.gather` fan-out over `n` image files
(all tasks are started; a failing task does not cancel its siblings). -/
def uploadEvents (n : Nat) (up : Nat → Option String) : List Event :=
  (List.range n).map (fun i => .upload i (up i))

/-- Holds when every upload task of the batch succeeded, i.e. `gather`
returns instead of raising. -/
def gatherOk (n : Nat) (up : Nat → Option String) : Bool :=
  (List.range n).all (fun i => (up i).isSome)

/-- The URLs `gather` returns when all uploads succeed (and, in general,
the URLs of the uploads that did succeed). -/
def gatherUrls (n : Nat) (up : Nat → Option String) : List String :=
  (List.range n).filterMap up

/-- Models `create_home_listing` (src/app/api/homes.py lines 255-413)
from the count validation on: `images` and `images_metadata` are opaque
handles for the files and parsed metadata entries. Control flow follows
the source exactly:
validation (lines 283-287, note there is no lower bound on the image
count), then the parallel upload fan-out (line 306). When `gather`
raises, the `uploaded_urls` assignment at line 306 never happens, so the
cleanup loop at lines 323-328 iterates the still-empty list initialized
at line 269 and performs no compensating delete before re-raising as
HTTP 500. When all uploads succeed the transaction runs (lines 352-383);
on its failure the rollback happens and the outer handler (lines 400-413)
deletes every uploaded URL and raises a generic HTTP 500. -/
def create_home_listing (images imagesMetadata : List Nat) (o : CreateOracles) :
    ApiResult × List Event × DbOutcome :=
  if images.length > 20 then
    (.clientError "Maximum 20 images allowed per listing", [], ⟨0, []⟩)
  else if images.length ≠ imagesMetadata.length then
    (.clientError "Image count doesn't match metadata count", [], ⟨0, []⟩)
  else if gatherOk images.length o.uploadResult then
    if o.dbOk then
      (.created (gatherUrls images.length o.uploadResult).length,
       uploadEvents images.length o.uploadResult ++ [.txBegin, .txCommit],
       ⟨1, gatherUrls images.length o.uploadResult⟩)
    else
      (.serverError "Failed to create listing. Please try again.",
       uploadEvents images.length o.uploadResult ++ [.txBegin, .txRollback]
         ++ (gatherUrls images.length o.uploadResult).map .storeDelete,
       ⟨0, []⟩)
  else
    (.serverError "Failed to upload images",
     uploadEvents images.length o.uploadResult,
     ⟨0, []⟩)

/-- Models the generic `create_listing` (src/app/api/common.py lines
20-181). Identical two-phase structure, but its validation also rejects
an empty image list (`if not images`, line 51). The same
`uploaded_urls`-assignment observation as in `create_home_listing`
applies to its upload-failure path (lines 73 and 95-104). -/
def create_listing (images : List Nat) (category : String) (o : CreateOracles) :
    ApiResult × List Event × DbOutcome :=
  if images.length = 0 then
    (.clientError "At least one image is required", [], ⟨0, []⟩)
  else if images.length > 20 then
    (.clientError "Maximum 20 images allowed per listing", [], ⟨0, []⟩)
  else if gatherOk images.length o.uploadResult then
    if o.dbOk then
      (.created (gatherUrls images.length o.uploadResult).length,
       uploadEvents images.length o.uploadResult ++ [.txBegin, .txCommit],
       ⟨1, gatherUrls images.length o.uploadResult⟩)
    else
      (.serverError ("Failed to create " ++ category ++ " listing"),
       uploadEvents images.length o.uploadResult ++ [.txBegin, .txRollback]
         ++ (gatherUrls images.length o.uploadResult).map .storeDelete,
       ⟨0, []⟩)
  else
    (.serverError "Failed to upload images",
     uploadEvents images.length o.uploadResult,
     ⟨0, []⟩)

/-- Number of new images in an update call:
`sum(1 for m in images_metadata if m.get("public_url", "") == "")`
(src/app/api/homes.py line 457). -/
def newImageCount (metaUrls : List String) : Nat :=
  (metaUrls.filter (fun u => u = "")).length

/-- Models `update_home_listing` (src/app/api/homes.py lines 416-602)
after the ownership check: `metaUrls` is the `public_url` field of each
metadata item (`""` marks a new image, paired positionally with the
uploaded files), `deletedUrls` is `deleted_public_urls`. New images are
uploaded in parallel before the transaction (lines 472-487); the
transaction updates the listing, deletes removed rows and upserts image
rows (lines 534-566); only after it commits are the removed images
deleted from storage (lines 568-575). On transaction failure the outer
handler deletes the images uploaded by this call (lines 590-602). -/
def update_home_listing (images : List Nat) (metaUrls deletedUrls : List String)
    (o : CreateOracles) : ApiResult × List Event :=
  if newImageCount metaUrls > 20 then
    (.clientError "Maximum 20 new images allowed", [])
  else if images.length ≠ newImageCount metaUrls then
    (.clientError ("Expected " ++ toString (newImageCount metaUrls) ++ " new images, got "
        ++ toString images.length), [])
  else if gatherOk (newImageCount metaUrls) o.uploadResult then
    if o.dbOk then
      (.updated metaUrls.length deletedUrls.length,
       uploadEvents (newImageCount metaUrls) o.uploadResult ++ [.txBegin, .txCommit]
         ++ deletedUrls.map .storeDelete)
    else
      (.serverError "Failed to update listing. Please try again.",
       uploadEvents (newImageCount metaUrls) o.uploadResult ++ [.txBegin, .txRollback]
         ++ (gatherUrls (newImageCount metaUrls) o.uploadResult).map .storeDelete)
  else
    (.serverError "Failed to upload new images",
     uploadEvents (newImageCount metaUrls) o.uploadResult)

/- ## Feed builder read path (src/app/api/homes.py get_home_listings) -/

/-- One row of the per-listing image query (src/app/api/homes.py lines
118-134): the rows arrive ordered by `sort_order`. -/
structure ImageRow where
  public_url : String
  signed_url : String
  tag : String
  caption : String
  is_hero : Bool
  sort_order : Nat
deriving DecidableEq, Repr

/-- Hero selection of `get_home_listings` (src/app/api/homes.py lines
160-167): `next((img for img in image_rows if img["is_hero"]), None)`,
falling back to `image_rows[0]` when the list is nonempty, else `None`. -/
def heroImageUrl (imageRows : List ImageRow) : Option String :=
  match imageRows.find? (fun img => img.is_hero) with
  | some img => some img.signed_url
  | none =>
    match imageRows with
    | [] => none
    | img :: _ => some img.signed_url

/-- A home row, identified by its listing id (other columns are not
inspected by the code under study). -/
structure HomeRow where
  listing_id : String
deriving DecidableEq, Repr

/-- One element of the response array built by `get_home_listings`
(src/app/api/homes.py lines 154-169). -/
structure ListingOut where
  home : HomeRow
  images : List ImageRow
  hero_image_url : Option String
deriving DecidableEq, Repr

/-- Assembly of one listing dict (src/app/api/homes.py lines 154-169). -/
def buildListing (h : HomeRow) (imgs : List ImageRow) : ListingOut :=
  ⟨h, imgs, heroImageUrl imgs⟩

/-- The accumulation performed by the `for home_row in home_rows` loop
(src/app/api/homes.py lines 142-169) under the surrounding
`try`/`except`/`finally`: when the image fetch for a row raises
(`fetchImages` returns `none`), the loop aborts, the `except` swallows
the exception, and the listings accumulated so far are what the
unconditional `return` in the `finally` hands back. -/
def accumListings : List HomeRow → (HomeRow → Option (List ImageRow)) → List ListingOut
  | [], _ => []
  | h :: hs, fetch =>
    match fetch h with
    | none => []
    | some imgs => buildListing h imgs :: accumListings hs fetch

/-- Models `get_home_listings` (src/app/api/homes.py lines 97-174).
`fetchHomes` is the initial `conn.fetch(query_home, ...)` (`none` = it
raised) and `fetchImages` the per-listing image fetch. When `fetchHomes`
itself raises, `listings` was never assigned, so the `return listings` in
the `finally` raises `UnboundLocalError`, which propagates; in every
other case the `finally` returns the accumulated list as a 200 response,
whatever happened inside the loop. -/
def get_home_listings (fetchHomes : Option (List HomeRow))
    (fetchImages : HomeRow → Option (List ImageRow)) :
    Except PyError (List ListingOut) :=
  match fetchHomes with
  | none => .error .unboundLocal
  | some rows => .ok (accumListings rows fetchImages)

/- ## Concrete fixtures used by counterexamples and witnesses -/

/-- Oracle for the C1 failing input: the first upload succeeds with
`urlA`, the second raises. -/
def oC1 : CreateOracles :=
  ⟨fun i => if i = 0 then some "urlA" else none, true⟩

/-- Oracle whose uploads all succeed (upload `i` yields `"u"` + the index)
and whose transaction succeeds. -/
def oAllOk : CreateOracles :=
  ⟨fun i => some ("u" ++ toString i), true⟩

/-- Oracle whose uploads all succeed but whose transaction fails. -/
def oDbFail : CreateOracles :=
  ⟨fun i => some ("u" ++ toString i), false⟩

/-- A constant HMAC oracle used when instantiating the signing theorems. -/
def hmacConst : List Nat → List Nat → List Nat :=
  fun _ _ => [1, 2, 3]

/-- Base64 of sixteen zero bytes, a well-formed signing key fixture. -/
def keyFixture : String := "AAAAAAAAAAAAAAAAAAAAAA=="

/-- Image-row fixtures for the hero-selection witness. -/
def rowA : ImageRow := ⟨"pA", "sA", "t", "c", false, 0⟩

/-- Second image-row fixture, marked as the hero. -/
def rowB : ImageRow := ⟨"pB", "sB", "t", "c", true, 1⟩

/-- Home-row fixtures for the read-path witness. -/
def homeRow1 : HomeRow := ⟨"L1"⟩

/-- Second home-row fixture, whose image fetch will be made to fail. -/
def homeRow2 : HomeRow := ⟨"L2"⟩

/-- Image fetch oracle for the read-path witness: succeeds on `homeRow1`
with `[rowA]`, raises on everything else. -/
def fetchImagesFixture : HomeRow → Option (List ImageRow) :=
  fun h => if h = homeRow1 then some [rowA] else none

/-- Upload-file fixture with image content type and unknown size. -/
def fileNoSize : UploadFileModel := ⟨some "image/jpeg", none, some "a.jpg", [1, 2, 3]⟩

/-- Upload-file fixture with a reported size over the 5 MB limit. -/
def fileBig : UploadFileModel := ⟨some "image/jpeg", some 6000000, some "a.jpg", [1, 2, 3]⟩

/-- Temporal property of one coordinator trace: every object-store upload
event occurs strictly before any database-transaction-begin event. -/
def uploadsBeforeTxBegin (tr : List Event) : Prop :=
  ∀ i j k r, tr.get? i = some (.upload k r) → tr.get? j = some Event.txBegin → i < j

/- ## Shared helper lemmas -/

theorem length_uploadEvents (n : Nat) (up : Nat → Option String) :
    (uploadEvents n up).length = n := by
  simp [uploadEvents]

theorem mem_uploadEvents {n : Nat} {up : Nat → Option String} {e : Event}
    (he : e ∈ uploadEvents n up) : ∃ k r, e = Event.upload k r := by
  rcases List.mem_map.mp he with ⟨i, _, rfl⟩
  exact ⟨i, up i, rfl⟩

theorem get?_uploadEvents {n i : Nat} (up : Nat → Option String) (hi : i < n) :
    (uploadEvents n up).get? i = some (.upload i (up i)) := by
  simp [uploadEvents, List.get?_eq_getElem?, List.getElem?_map, List.getElem?_range, hi]

theorem mem_gatherUrls {n : Nat} {up : Nat → Option String} {u : String} :
    u ∈ gatherUrls n up ↔ ∃ i, i < n ∧ up i = some u := by
  simp [gatherUrls, List.mem_filterMap, List.mem_range]

theorem gatherOk_isSome {n : Nat} {up : Nat → Option String}
    (h : gatherOk n up = true) {i : Nat} (hi : i < n) : (up i).isSome := by
  have := List.all_eq_true.mp h i (List.mem_range.mpr hi)
  simpa using this

theorem uploadsBeforeTxBegin_append {xs ys : List Event}
    (hx : ∀ e ∈ xs, ∃ k r, e = Event.upload k r)
    (hy : ∀ k r, Event.upload k r ∉ ys) :
    uploadsBeforeTxBegin (xs ++ ys) := by
  intro i j k r hi hj
  have hilt : i < xs.length := by
    by_contra hge
    have hge' : xs.length ≤ i := Nat.le_of_not_lt hge
    rw [List.get?_append_right hge'] at hi
    exact hy k r (List.get?_mem hi)
  have hjge : xs.length ≤ j := by
    by_contra hlt
    have hlt' : j < xs.length := Nat.lt_of_not_le hlt
    rw [List.get?_append hlt'] at hj
    rcases hx _ (List.get?_mem hj) with ⟨k', r', h'⟩
    exact Event.noConfusion h'
  exact Nat.lt_of_lt_of_le hilt hjge

theorem uploadsBeforeTxBegin_nil : uploadsBeforeTxBegin [] := by
  intro i j k r hi _
  simp at hi

theorem sizeGuardFires_iff (s : Option Nat) :
    sizeGuardFires s = true ↔ ∃ n, s = some n ∧ n > 5000000 := by
  cases s with
  | none => simp [sizeGuardFires]
  | some n =>
    simp [sizeGuardFires]
    omega

/- ## Claim theorems -/

/-- Claim C1: at the concrete failing input — two images, the first upload
succeeding with `urlA`, the second raising — `create_home_listing` reports
upload failure and writes no database row, but issues NO compensating
delete for the successful upload: because `asyncio.gather` raised, the
assignment to `uploaded_urls` never ran, so the cleanup loop iterates the
still-empty list and `urlA` is orphaned. The source's own comment at
src/app/api/homes.py line 322 ("Clean up any successfully uploaded
images") and the specification both require one delete for `urlA`'s
reference here; the trace below contains none. -/
theorem claimC1_gather_failure_skips_compensating_deletes :
    create_home_listing [10, 11] [0, 1] oC1
      = (.serverError "Failed to upload images",
         [.upload 0 (some "urlA"), .upload 1 none],
         ⟨0, []⟩) := by
  rfl

/-- Claim C6 counterexample: a create-listing call through
`create_home_listing` with zero image files (and zero metadata entries)
is NOT rejected with a validation error — it passes validation, proceeds
to the (empty) upload fan-out and the database transaction, and succeeds,
creating an image-less listing. -/
theorem claimC6_counterexample :
    create_home_listing [] [] oAllOk = (.created 0, [.txBegin, .txCommit], ⟨1, []⟩)
      ∧ isClientError (create_home_listing [] [] oAllOk).1 = false := by
  exact ⟨rfl, rfl⟩

/-- Claim C6 (amended): the generic `create_listing` handler rejects with
a validation error, before any upload or database I/O, exactly when the
image count is 0 or exceeds 20; `create_home_listing` rejects before any
I/O exactly when the image count exceeds 20 or differs from the metadata
count — it has no lower bound, so a zero-image call passes its
validation. -/
theorem claimC6_validation_bounds :
    (∀ (images : List Nat) (category : String) (o : CreateOracles),
        isClientError (create_listing images category o).1 = true
          ↔ (images.length = 0 ∨ images.length > 20))
    ∧ (∀ (images : List Nat) (category : String) (o : CreateOracles),
        images.length = 0 ∨ images.length > 20 →
        (create_listing images category o).2.1 = []
          ∧ (create_listing images category o).2.2 = ⟨0, []⟩)
    ∧ (∀ (images md : List Nat) (o : CreateOracles),
        isClientError (create_home_listing images md o).1 = true
          ↔ (images.length > 20 ∨ images.length ≠ md.length))
    ∧ (∀ (images md : List Nat) (o : CreateOracles),
        images.length > 20 ∨ images.length ≠ md.length →
        (create_home_listing images md o).2.1 = []
          ∧ (create_home_listing images md o).2.2 = ⟨0, []⟩) := by
  refine ⟨?_, ?_, ?_, ?_⟩
  · intro images category o
    unfold create_listing
    split_ifs with h0 h20 hg hdb
    · exact iff_of_true rfl (Or.inl h0)
    · exact iff_of_true rfl (Or.inr h20)
    · exact iff_of_false (by simp [isClientError]) (by omega)
    · exact iff_of_false (by simp [isClientError]) (by omega)
    · exact iff_of_false (by simp [isClientError]) (by omega)
  · intro images category o h
    unfold create_listing
    split_ifs with h0 h20 hg hdb
    · exact ⟨rfl, rfl⟩
    · exact ⟨rfl, rfl⟩
    · exact absurd h (by omega)
    · exact absurd h (by omega)
    · exact absurd h (by omega)
  · intro images md o
    unfold create_home_listing
    split_ifs with h20 hne hg hdb
    · exact iff_of_true rfl (Or.inl h20)
    · exact iff_of_true rfl (Or.inr hne)
    · exact iff_of_false (by simp [isClientError]) (by omega)
    · exact iff_of_false (by simp [isClientError]) (by omega)
    · exact iff_of_false (by simp [isClientError]) (by omega)
  · intro images md o h
    unfold create_home_listing
    split_ifs with h20 hne hg hdb
    · exact ⟨rfl, rfl⟩
    · exact ⟨rfl, rfl⟩
    · exact absurd h (by omega)
    · exact absurd h (by omega)
    · exact absurd h (by omega)

/-- Claim C6 witness: a zero-image call through the generic handler is
rejected with no trace events and no database rows. -/
theorem claimC6_witness :
    (create_listing [] "home" oAllOk).2.1 = []
      ∧ (create_listing [] "home" oAllOk).2.2 = ⟨0, []⟩ :=
  claimC6_validation_bounds.2.1 [] "home" oAllOk (Or.inl rfl)

/-- Claim C8: `delete_image_from_storage` is a total boolean function — it
never raises to its caller (its `except Exception` handler is modelled by
the `Bool` return type) — and it returns the soft failure `false` both
when the public URL is malformed (the bucket marker is absent, so Python
would raise `IndexError` inside the `try`) and when the underlying GCS
delete raises (object already deleted or never existed); it returns
`true` exactly on a successful delete. -/
theorem claimC8_delete_soft_failure :
    ∀ (storeDel : String → Except PyError Unit) (bucket url : String),
      (pySplitSecond url ("storage.googleapis.com/" ++ bucket ++ "/") = none →
        delete_image_from_storage storeDel bucket url = false)
      ∧ (∀ bn e, pySplitSecond url ("storage.googleapis.com/" ++ bucket ++ "/") = some bn →
          storeDel bn = .error e →
          delete_image_from_storage storeDel bucket url = false)
      ∧ (∀ bn, pySplitSecond url ("storage.googleapis.com/" ++ bucket ++ "/") = some bn →
          storeDel bn = .ok () →
          delete_image_from_storage storeDel bucket url = true) := by
  intro storeDel bucket url
  refine ⟨fun h => ?_, fun bn e h1 h2 => ?_, fun bn h1 h2 => ?_⟩
  · simp [delete_image_from_storage, h]
  · simp [delete_image_from_storage, h1, h2]
  · simp [delete_image_from_storage, h1, h2]

/-- Claim C8 witness: a delete whose GCS call raises NotFound (already
deleted object) returns `false`, at a concrete well-formed URL. -/
theorem claimC8_witness :
    delete_image_from_storage (fun _ => .error (.exception "NotFound"))
      "swapwithus-listing-images"
      "https://storage.googleapis.com/swapwithus-listing-images/home/a.jpg" = false :=
  (claimC8_delete_soft_failure (fun _ => .error (.exception "NotFound"))
      "swapwithus-listing-images"
      "https://storage.googleapis.com/swapwithus-listing-images/home/a.jpg").2.1
    "home/a.jpg" (.exception "NotFound") (by decide) rfl

/-- Claim C9: in `upload_photo_to_storage`, the 5 MB guard
`photo.size and photo.size > 5_000_000` is skipped when the reported size
is `None`: among files passing the content-type check, the size-limit
`ValueError` is raised if and only if a size is reported and exceeds
5,000,000 bytes; and a file with image content type and unknown reported
size is accepted and uploaded whatever its actual content bytes are. -/
theorem claimC9_size_check_skipped_when_absent :
    (∀ f : UploadFileModel, contentTypeOk f.content_type = true →
        (uploadPhotoValidate f = .error (.valueError "File size too large (max 5MB)")
          ↔ ∃ n, f.size = some n ∧ n > 5000000))
    ∧ (∀ (storePut : String → List Nat → Bool) (ct : String) (fn : Option String)
        (content : List Nat) (lid cat bkt ts uid : String),
        contentTypeOk (some ct) = true →
        storePut (uploadBlobName cat lid ts uid fn) content = true →
        upload_photo_to_storage storePut ⟨some ct, none, fn, content⟩ lid cat bkt ts uid
          = .ok ("https://storage.googleapis.com/" ++ bkt ++ "/"
              ++ uploadBlobName cat lid ts uid fn)) := by
  constructor
  · intro f hct
    unfold uploadPhotoValidate
    rw [hct]
    simp only [Bool.true_eq_false, if_false]
    by_cases hs : sizeGuardFires f.size = true
    · rw [if_pos hs]
      exact iff_of_true rfl ((sizeGuardFires_iff f.size).mp hs)
    · rw [if_neg hs]
      exact iff_of_false (by simp) (fun hx => hs ((sizeGuardFires_iff f.size).mpr hx))
  · intro storePut ct fn content lid cat bkt ts uid hct hput
    unfold upload_photo_to_storage uploadPhotoValidate
    rw [hct]
    simp only [Bool.true_eq_false, if_false]
    rw [show sizeGuardFires none = false from rfl]
    simp [hput]

/-- Claim C9 witness: the concrete no-size file is uploaded successfully,
and the concrete oversized file fires the size guard. -/
theorem claimC9_witness :
    upload_photo_to_storage (fun _ _ => true) fileNoSize "L1" "home" "bkt" "ts" "uid"
      = .ok ("https://storage.googleapis.com/bkt/"
          ++ uploadBlobName "home" "L1" "ts" "uid" (some "a.jpg"))
      ∧ uploadPhotoValidate fileBig = .error (.valueError "File size too large (max 5MB)") :=
  ⟨claimC9_size_check_skipped_when_absent.2 (fun _ _ => true) "image/jpeg" (some "a.jpg")
      [1, 2, 3] "L1" "home" "bkt" "ts" "uid" (by decide) rfl,
   (claimC9_size_check_skipped_when_absent.1 fileBig (by decide)).mpr
      ⟨6000000, rfl, by omega⟩⟩

/-- Claim C4 counterexample: with the signing-key environment variable
absent (`None`), `make_urlprefix_token` does NOT raise — `_b64_any_to_bytes`
decodes the empty string to zero key bytes, no validation is performed,
and a policy+signature token is returned. This falsifies the claim that
every URL-signing operation raises when the secret key is absent. -/
theorem claimC4_counterexample :
    isOkE (make_urlprefix_token hmacConst "https://cdn.swapwithus.com/home/"
        "cdnkey" none 1000 36000) = true := by
  rfl

/-- Claim C4 (amended): `sign_cdn_url` raises a `ValueError` whenever the
configured key is absent or decodes to fewer than 16 bytes (so absent and
malformed-short keys fail loudly there), but `make_urlprefix_token`
performs no key validation at all: whenever the key string decodes (in
particular when it is absent, decoding to zero bytes), it returns a token
instead of raising. -/
theorem claimC4_sign_validates_but_token_does_not :
    (∀ (hmacSha1 : List Nat → List Nat → List Nat) (url kn : String) (now ttl : Nat),
        (pyStartsWith url "https://" || pyStartsWith url "http://") = true →
        sign_cdn_url hmacSha1 url kn none now ttl = .error (.valueError signKeyErrorMsg))
    ∧ (∀ (hmacSha1 : List Nat → List Nat → List Nat) (url kn : String)
        (kb : Option String) (now ttl : Nat) (key : List Nat),
        (pyStartsWith url "https://" || pyStartsWith url "http://") = true →
        _b64_any_to_bytes kb = some key → key.length < 16 →
        sign_cdn_url hmacSha1 url kn kb now ttl = .error (.valueError signKeyErrorMsg))
    ∧ (∀ (hmacSha1 : List Nat → List Nat → List Nat) (pfx kn : String)
        (kb : Option String) (now ttl : Nat) (key : List Nat),
        _b64_any_to_bytes kb = some key →
        isOkE (make_urlprefix_token hmacSha1 pfx kn kb now ttl) = true) := by
  refine ⟨?_, ?_, ?_⟩
  · intro hmacSha1 url kn now ttl hscheme
    unfold sign_cdn_url
    rw [hscheme]
    simp only [Bool.true_eq_false, not_true_eq_false, if_false]
    rw [show _b64_any_to_bytes none = some [] from rfl]
    rfl
  · intro hmacSha1 url kn kb now ttl key hscheme hdec hlen
    unfold sign_cdn_url
    rw [hscheme]
    simp only [Bool.true_eq_false, not_true_eq_false, if_false]
    rw [hdec]
    simp [hlen]
  · intro hmacSha1 pfx kn kb now ttl key hdec
    unfold make_urlprefix_token
    rw [hdec]
    rfl

/-- Claim C4 witness: at a concrete URL, signing with an absent key
raises the short-key `ValueError`, while prefix-token creation with the
same absent key succeeds. -/
theorem claimC4_witness :
    sign_cdn_url hmacConst "https://cdn.swapwithus.com/home/a.jpg" "cdnkey" none 1000 3600
        = .error (.valueError signKeyErrorMsg)
      ∧ isOkE (make_urlprefix_token hmacConst "https://cdn.swapwithus.com/home/"
          "cdnkey" none 1000 3600) = true :=
  ⟨claimC4_sign_validates_but_token_does_not.1 hmacConst
      "https://cdn.swapwithus.com/home/a.jpg" "cdnkey" 1000 3600 (by decide),
   claimC4_sign_validates_but_token_does_not.2.2 hmacConst
      "https://cdn.swapwithus.com/home/" "cdnkey" none 1000 3600 [] rfl⟩

/-- Claim C5: for every URL prefix, key name, decodable key, current time
and TTL, `make_urlprefix_token` returns exactly the policy string
`URLPrefix={base64url-no-padding(prefix)}&Expires={now+ttl}&KeyName={kn}`
followed by `&Signature={s}` with `s` the base64url-no-padding encoding
of the HMAC of the policy string under the decoded key (stated against
`specUrlPrefixToken`, which is built from the claim's wording); and
`sign_cdn_url` likewise returns the URL with `Expires`, `KeyName` and the
base64url HMAC signature appended. -/
theorem claimC5_token_and_url_format :
    (∀ (hmacSha1 : List Nat → List Nat → List Nat) (pfx kn : String)
        (kb : Option String) (now ttl : Nat) (key : List Nat),
        _b64_any_to_bytes kb = some key →
        make_urlprefix_token hmacSha1 pfx kn kb now ttl
          = .ok (specUrlPrefixToken hmacSha1 key pfx kn now ttl))
    ∧ (∀ (hmacSha1 : List Nat → List Nat → List Nat) (url kn : String)
        (kb : Option String) (now ttl : Nat) (key : List Nat),
        _b64_any_to_bytes kb = some key → 16 ≤ key.length →
        (pyStartsWith url "https://" || pyStartsWith url "http://") = true →
        sign_cdn_url hmacSha1 url kn kb now ttl
          = .ok (urlToSign url kn (now + ttl) ++ "&Signature="
              ++ b64urlEncodeNoPad (hmacSha1 key (strBytes (urlToSign url kn (now + ttl)))))) := by
  constructor
  · intro hmacSha1 pfx kn kb now ttl key hdec
    unfold make_urlprefix_token
    rw [hdec]
    rfl
  · intro hmacSha1 url kn kb now ttl key hdec hlen hscheme
    unfold sign_cdn_url
    rw [hscheme]
    simp only [Bool.true_eq_false, not_true_eq_false, if_false]
    rw [hdec]
    simp [Nat.not_lt.mpr hlen]

/-- Claim C5 witness: instantiated at the 16-zero-byte key fixture and a
concrete prefix, URL, key name and clock. -/
theorem claimC5_witness :
    make_urlprefix_token hmacConst "https://cdn.swapwithus.com/home/" "cdnkey"
        (some keyFixture) 1000 3600
      = .ok (specUrlPrefixToken hmacConst (List.replicate 16 0)
          "https://cdn.swapwithus.com/home/" "cdnkey" 1000 3600)
      ∧ sign_cdn_url hmacConst "https://cdn.swapwithus.com/home/a.jpg" "cdnkey"
          (some keyFixture) 1000 3600
        = .ok (urlToSign "https://cdn.swapwithus.com/home/a.jpg" "cdnkey" 4600
            ++ "&Signature="
            ++ b64urlEncodeNoPad (hmacConst (List.replicate 16 0)
                (strBytes (urlToSign "https://cdn.swapwithus.com/home/a.jpg" "cdnkey" 4600)))) :=
  ⟨claimC5_token_and_url_format.1 hmacConst "https://cdn.swapwithus.com/home/" "cdnkey"
      (some keyFixture) 1000 3600 (List.replicate 16 0) (by decide),
   claimC5_token_and_url_format.2 hmacConst "https://cdn.swapwithus.com/home/a.jpg" "cdnkey"
      (some keyFixture) 1000 3600 (List.replicate 16 0) (by decide) (by decide) (by decide)⟩

/-- Claim C7: for image rows sorted by `sort_order` (as the SQL
`ORDER BY sort_order` delivers them), the hero selection of
`get_home_listings` picks the row marked `is_hero` when it is the unique
such row; when no row is marked hero and at least one image exists it
picks the first image, which is minimal in `sort_order`; and with no
images the hero is null. -/
theorem claimC7_hero_selection :
    ∀ rows : List ImageRow,
      rows.Pairwise (fun a b => a.sort_order ≤ b.sort_order) →
      (∀ r ∈ rows, r.is_hero = true → (∀ q ∈ rows, q.is_hero = true → q = r) →
          heroImageUrl rows = some r.signed_url)
      ∧ (rows = [] → heroImageUrl rows = none)
      ∧ ((∀ r ∈ rows, r.is_hero = false) → ∀ r rest, rows = r :: rest →
          heroImageUrl rows = some r.signed_url
            ∧ ∀ q ∈ rows, r.sort_order ≤ q.sort_order) := by
  intro rows hsorted
  refine ⟨?_, ?_, ?_⟩
  · intro r hr hhero huniq
    have hsome : (rows.find? (fun img => img.is_hero)).isSome := by
      rw [List.find?_isSome]
      exact ⟨r, hr, hhero⟩
    rcases Option.isSome_iff_exists.mp hsome with ⟨q, hq⟩
    have hqhero : q.is_hero = true := List.find?_some hq
    have hqmem : q ∈ rows := List.mem_of_find?_eq_some hq
    have : q = r := huniq q hqmem hqhero
    subst this
    simp [heroImageUrl, hq]
  · intro h
    subst h
    rfl
  · intro hnone r rest hrows
    subst hrows
    have hfindnone : (r :: rest).find? (fun img => img.is_hero) = none := by
      rw [List.find?_eq_none]
      intro x hx
      simp [hnone x hx]
    refine ⟨by simp [heroImageUrl, hfindnone], ?_⟩
    intro q hq
    rcases List.mem_cons.mp hq with h | h
    · subst h
      exact Nat.le_refl _
    · exact (List.pairwise_cons.mp hsorted).1 q h

/-- Claim C7 witness: with `rowB` the unique hero among `[rowA, rowB]`
(sorted by `sort_order`), the hero URL is `rowB`'s signed URL; with no
hero marked in `[rowA]`, the first row is picked; with no rows, null. -/
theorem claimC7_witness :
    heroImageUrl [rowA, rowB] = some rowB.signed_url
      ∧ heroImageUrl [] = none
      ∧ heroImageUrl [rowA] = some rowA.signed_url :=
  ⟨(claimC7_hero_selection [rowA, rowB] (by decide)).1 rowB (by decide) (by decide)
      (by decide),
   (claimC7_hero_selection [] (by decide)).2.1 rfl,
   ((claimC7_hero_selection [rowA] (by decide)).2.2 (by decide) rowA [] rfl).1⟩

/-- Helper: the loop accumulation stops at the first failing row and
keeps what was built before it. -/
theorem accumListings_append_fail (post : List HomeRow) (h : HomeRow)
    (fetch : HomeRow → Option (List ImageRow)) (hfail : fetch h = none) :
    ∀ pre : List HomeRow, (∀ x ∈ pre, (fetch x).isSome) →
      accumListings (pre ++ h :: post) fetch
        = pre.map (fun x => buildListing x ((fetch x).getD [])) := by
  intro pre
  induction pre with
  | nil =>
    intro _
    simp [accumListings, hfail]
  | cons x xs ih =>
    intro hpre
    have hx : (fetch x).isSome := hpre x (List.mem_cons_self x xs)
    rcases Option.isSome_iff_exists.mp hx with ⟨imgs, himgs⟩
    simp [accumListings, himgs, ih (fun y hy => hpre y (List.mem_cons_of_mem x hy))]

/-- Claim C10: whenever the per-listing image fetch raises partway
through the read loop of `get_home_listings` — after the `listings`
accumulator has been initialized — the `except` swallows the exception
and the unconditional `return` in the `finally` hands back the listings
accumulated so far as a normal 200 response: the endpoint returns `.ok`
with exactly the listings built from the rows processed before the
failure, not an error. -/
theorem claimC10_partial_list_on_midloop_error :
    ∀ (pre post : List HomeRow) (h : HomeRow)
      (fetch : HomeRow → Option (List ImageRow)),
      (∀ x ∈ pre, (fetch x).isSome) → fetch h = none →
      get_home_listings (some (pre ++ h :: post)) fetch
        = .ok (pre.map (fun x => buildListing x ((fetch x).getD []))) := by
  intro pre post h fetch hpre hfail
  show Except.ok (accumListings (pre ++ h :: post) fetch) = _
  exact congrArg Except.ok (accumListings_append_fail post h fetch hfail pre hpre)

/-- Claim C10 witness: with the image fetch succeeding for `homeRow1` and
raising for `homeRow2`, the endpoint returns a successful response
containing only the first listing. -/
theorem claimC10_witness :
    get_home_listings (some [homeRow1, homeRow2]) fetchImagesFixture
      = .ok [buildListing homeRow1 [rowA]] := by
  have h := claimC10_partial_list_on_midloop_error [homeRow1] [] homeRow2
    fetchImagesFixture (by decide) (by decide)
  simpa using h

/-- Claim C2: whenever validation passes, all uploads succeed and the
database persistence phase then fails, `create_home_listing` ends with
the transaction rolled back — zero listing rows and zero image rows for
the attempted listing — issues a compensating object-store delete for
every uploaded image before surfacing the error (the `storeDelete`
events for all uploaded URLs are in the call's trace, after the
rollback and before the return), and the caller receives only the
generic failure message. -/
theorem claimC2_persistence_failure_compensated :
    ∀ (images md : List Nat) (o : CreateOracles),
      images.length ≤ 20 → images.length = md.length →
      gatherOk images.length o.uploadResult = true → o.dbOk = false →
      create_home_listing images md o
        = (.serverError "Failed to create listing. Please try again.",
           uploadEvents images.length o.uploadResult ++ [.txBegin, .txRollback]
             ++ (gatherUrls images.length o.uploadResult).map .storeDelete,
           ⟨0, []⟩)
      ∧ ∀ i, i < images.length → ∃ u, o.uploadResult i = some u
          ∧ Event.storeDelete u ∈ (create_home_listing images md o).2.1 := by
  intro images md o hle heq hg hdb
  have hbranch : create_home_listing images md o
      = (.serverError "Failed to create listing. Please try again.",
         uploadEvents images.length o.uploadResult ++ [.txBegin, .txRollback]
           ++ (gatherUrls images.length o.uploadResult).map .storeDelete,
         ⟨0, []⟩) := by
    unfold create_home_listing
    rw [if_neg (show ¬ images.length > 20 by omega)]
    rw [if_neg (show ¬ images.length ≠ md.length by omega)]
    rw [if_pos hg, hdb]
    simp
  refine ⟨hbranch, ?_⟩
  intro i hi
  have hsome : (o.uploadResult i).isSome := gatherOk_isSome hg hi
  rcases Option.isSome_iff_exists.mp hsome with ⟨u, hu⟩
  refine ⟨u, hu, ?_⟩
  rw [hbranch]
  have hmem : u ∈ gatherUrls images.length o.uploadResult :=
    mem_gatherUrls.mpr ⟨i, hi, hu⟩
  exact List.mem_append.mpr (Or.inr (List.mem_map.mpr ⟨u, hmem, rfl⟩))

/-- Claim C2 witness: two images, both uploads succeeding, database
failing — the result is the generic error, the attempted listing has no
rows, and both uploaded objects get compensating deletes. -/
theorem claimC2_witness :
    create_home_listing [1, 2] [3, 4] oDbFail
      = (.serverError "Failed to create listing. Please try again.",
         [.upload 0 (some "u0"), .upload 1 (some "u1"), .txBegin, .txRollback,
          .storeDelete "u0", .storeDelete "u1"],
         ⟨0, []⟩) :=
  (claimC2_persistence_failure_compensated [1, 2] [3, 4] oDbFail
      (by decide) rfl (by decide) rfl).1

/-- Claim C3: in every `create_home_listing` call and every
`update_home_listing` call, all object-store upload events occur strictly
before the transaction-begin event of the trace; and for every successful
create, every image row persisted for the listing carries a URL that was
uploaded (appears as a successful upload event) strictly before the
transaction-commit event. -/
theorem claimC3_uploads_strictly_precede_transaction :
    (∀ (images md : List Nat) (o : CreateOracles),
        uploadsBeforeTxBegin (create_home_listing images md o).2.1)
    ∧ (∀ (images : List Nat) (metaUrls deletedUrls : List String) (o : CreateOracles),
        uploadsBeforeTxBegin (update_home_listing images metaUrls deletedUrls o).2)
    ∧ (∀ (images md : List Nat) (o : CreateOracles) (m : Nat),
        (create_home_listing images md o).1 = .created m →
        ∀ url ∈ (create_home_listing images md o).2.2.imageRows,
          ∃ i j k, (create_home_listing images md o).2.1.get? i
              = some (.upload k (some url))
            ∧ (create_home_listing images md o).2.1.get? j = some Event.txCommit
            ∧ i < j) := by
  refine ⟨?_, ?_, ?_⟩
  · intro images md o
    unfold create_home_listing
    split_ifs with h20 hne hg hdb
    · exact uploadsBeforeTxBegin_nil
    · exact uploadsBeforeTxBegin_nil
    · exact uploadsBeforeTxBegin_append (fun e he => mem_uploadEvents he)
        (by intro k r hmem; simp at hmem)
    · rw [show ((uploadEvents images.length o.uploadResult ++ [Event.txBegin, Event.txRollback]
          ++ (gatherUrls images.length o.uploadResult).map Event.storeDelete) : List Event)
          = uploadEvents images.length o.uploadResult ++ ([Event.txBegin, Event.txRollback]
          ++ (gatherUrls images.length o.uploadResult).map Event.storeDelete)
          from List.append_assoc _ _ _]
      exact uploadsBeforeTxBegin_append (fun e he => mem_uploadEvents he)
        (by intro k r hmem; simp [List.mem_append] at hmem)
    · have h := @uploadsBeforeTxBegin_append (uploadEvents images.length o.uploadResult) []
        (fun e he => mem_uploadEvents he) (by intro k r hmem; simp at hmem)
      simpa using h
  · intro images metaUrls deletedUrls o
    unfold update_home_listing
    split_ifs with h20 hne hg hdb
    · exact uploadsBeforeTxBegin_nil
    · exact uploadsBeforeTxBegin_nil
    · rw [show ((uploadEvents (newImageCount metaUrls) o.uploadResult
          ++ [Event.txBegin, Event.txCommit] ++ deletedUrls.map Event.storeDelete) : List Event)
          = uploadEvents (newImageCount metaUrls) o.uploadResult
          ++ ([Event.txBegin, Event.txCommit] ++ deletedUrls.map Event.storeDelete)
          from List.append_assoc _ _ _]
      exact uploadsBeforeTxBegin_append (fun e he => mem_uploadEvents he)
        (by intro k r hmem; simp [List.mem_append] at hmem)
    · rw [show ((uploadEvents (newImageCount metaUrls) o.uploadResult
          ++ [Event.txBegin, Event.txRollback]
          ++ (gatherUrls (newImageCount metaUrls) o.uploadResult).map Event.storeDelete) : List Event)
          = uploadEvents (newImageCount metaUrls) o.uploadResult
          ++ ([Event.txBegin, Event.txRollback]
          ++ (gatherUrls (newImageCount metaUrls) o.uploadResult).map Event.storeDelete)
          from List.append_assoc _ _ _]
      exact uploadsBeforeTxBegin_append (fun e he => mem_uploadEvents he)
        (by intro k r hmem; simp [List.mem_append] at hmem)
    · have h := @uploadsBeforeTxBegin_append
        (uploadEvents (newImageCount metaUrls) o.uploadResult) []
        (fun e he => mem_uploadEvents he) (by intro k r hmem; simp at hmem)
      simpa using h
  · intro images md o m hres url hurl
    unfold create_home_listing at hres hurl ⊢
    split_ifs at hres hurl ⊢
    all_goals try simp at hres
    have hurl' : url ∈ gatherUrls images.length o.uploadResult := hurl
    rcases mem_gatherUrls.mp hurl' with ⟨i, hi, hu⟩
    refine ⟨i, images.length + 1, i, ?_, ?_, by omega⟩
    · show (uploadEvents images.length o.uploadResult
          ++ [Event.txBegin, Event.txCommit]).get? i = some (.upload i (some url))
      rw [List.get?_append (by rw [length_uploadEvents]; exact hi)]
      rw [get?_uploadEvents o.uploadResult hi, hu]
    · show (uploadEvents images.length o.uploadResult
          ++ [Event.txBegin, Event.txCommit]).get? (images.length + 1)
          = some Event.txCommit
      rw [List.get?_append_right (by rw [length_uploadEvents]; omega)]
      rw [length_uploadEvents]
      have hidx : images.length + 1 - images.length = 1 := by omega
      rw [hidx]
      rfl

/-- Claim C3 witness: at a concrete one-image create with everything
succeeding, the upload event sits at index 0 of the trace, the
transaction begins at index 1, and the theorem yields the strict
ordering. -/
theorem claimC3_witness :
    (create_home_listing [5] [7] oAllOk).2.1.get? 0 = some (.upload 0 (some "u0"))
      ∧ (create_home_listing [5] [7] oAllOk).2.1.get? 1 = some Event.txBegin
      ∧ 0 < 1 :=
  ⟨rfl, rfl,
   claimC3_uploads_strictly_precede_transaction.1 [5] [7] oAllOk 0 1 0 (some "u0") rfl rfl⟩
